import Mathlib

/-!
Verification development for the Post Feed & Ownership Service
(`src/app/app.py`, data model in `src/app/db.py`).

The three HTTP operations `upload_file` (`POST /upload`), `get_feed`
(`GET /feed`) and `delete_post` (`DELETE /delete/{post_id}`) are embedded
shallowly as pure Lean functions over an explicit store (the list of Post
rows in insertion order).  External collaborators — the ImageKit blob
store, the database commit, the server clock and the id generator — are
passed in as explicit outcome parameters, so each theorem quantifies over
every behaviour those collaborators may exhibit.  Python's `try/except`
blocks are embedded as a body function returning a `TryResult` plus an
exception handler applied to its outcome, mirroring the source control
flow; the `finally` clause of `upload_file` is a separate function applied
on every path.
-/

namespace FastapiApp

/-- Post row, from `class Post(Base)` in `src/app/db.py` (lines 57–88).
`id` and `user_id` are UUID columns, modelled as `Nat`; `created_at` is a
DateTime modelled as `Nat`. -/
structure Post where
  id : Nat
  user_id : Nat
  caption : String
  url : String
  file_type : String
  file_name : String
  created_at : Nat
deriving DecidableEq

/-- The authenticated caller resolved by `current_active_user`
(`src/app/users.py`); the handlers only read `user.id` and `user.email`. -/
structure User where
  id : Nat
  email : String
deriving DecidableEq

/-- The multipart upload as the handler sees it: `file.filename`,
the binary content staged by `shutil.copyfileobj`, and
`file.content_type`, which FastAPI leaves `None` when the client sends no
Content-Type for the part. -/
structure UploadFile where
  filename : String
  content : List Nat
  content_type : Option String
deriving DecidableEq

/-- Python exceptions that can arise inside the two `try` blocks of
`src/app/app.py`. -/
inductive PyExc where
  | valueError (msg : String)
  | attributeError (msg : String)
  | httpException (status : Nat) (detail : String)
  | upstreamError (msg : String)
  | persistError (msg : String)
deriving DecidableEq

/-- `str(e)` on a caught exception.  Starlette's `HTTPException.__str__`
renders `f"{status_code}: {detail}"`; the other exceptions render their
message. -/
def PyExc.str : PyExc → String
  | .valueError m => m
  | .attributeError m => m
  | .httpException s d => toString s ++ ": " ++ d
  | .upstreamError m => m
  | .persistError m => m

/-- Outcome of the body of a Python `try` block. -/
inductive TryResult (α : Type) where
  | ok (val : α)
  | exc (e : PyExc)
deriving DecidableEq

/-- Outcome of the external `imagekit.files.upload` call
(`src/app/app.py` lines 100–105): on success ImageKit returns a durable
`url` and the stored file `name` (possibly renamed, since
`use_unique_file_name=True`). -/
inductive BlobOutcome where
  | ok (url : String) (stored : String)
  | err (msg : String)
deriving DecidableEq

/-- Server-side environment of one `upload_file` call: the blob-store
outcome, whether `session.commit()` raises (`persistFail = some msg`),
the server clock value used for the `created_at` column default
(`datetime.datetime.utcnow`, `src/app/db.py` line 86), and the
server-generated `uuid.uuid4` primary key (`src/app/db.py` line 80).
None of these fields is client-supplied. -/
structure UploadEnv where
  blob : BlobOutcome
  persistFail : Option String
  now : Nat
  newId : Nat
deriving DecidableEq

/-- Resource bookkeeping for one `upload_file` call: the temporary
staging file created by `tempfile.NamedTemporaryFile(delete=False)`, its
deletion by `os.unlink` in the `finally` clause, whether the ImageKit
upload was issued, and the `file.file.close()` call. -/
structure UploadTrace where
  temp_created : Bool
  temp_deleted : Bool
  blob_uploaded : Bool
  file_closed : Bool
deriving DecidableEq

/-- Modelled from the Python standard library: `str.startswith`, as a
character-list prefix test (equivalent to Lean's `String.startsWith`,
stated on `toList` so that it evaluates by kernel reduction). -/
def strStartsWith (s pre : String) : Bool := pre.toList.isPrefixOf s.toList

/-- `src/app/app.py` line 108:
`"video" if file.content_type.startswith("video/") else "image"`. -/
def mediaTypeOf (ct : String) : String :=
  if strStartsWith ct "video/" then "video" else "image"

/-- HTTP response of the upload endpoint: the created Post rendered back
to the caller, or an `HTTPException` response. -/
inductive UploadResponse where
  | created (post : Post)
  | httpError (status : Nat) (detail : String)
deriving DecidableEq

/-- The `try` body of `upload_file` (`src/app/app.py` lines 89–125):
stage the content in a temp file, submit it to ImageKit, classify the
media type from `file.content_type`, build the `Post` row and commit it.
When `file.content_type` is `None`, `.startswith` raises
`AttributeError`.  Returns the body outcome, the store after the call,
and the resource trace before the `finally` clause runs. -/
def uploadBody (file : UploadFile) (user : User) (caption : String)
    (env : UploadEnv) (store : List Post) :
    TryResult Post × List Post × UploadTrace :=
  let tr0 : UploadTrace :=
    { temp_created := true, temp_deleted := false
      blob_uploaded := false, file_closed := false }
  match env.blob with
  | .err msg => (.exc (.upstreamError msg), store, tr0)
  | .ok url stored =>
    let tr1 := { tr0 with blob_uploaded := true }
    match file.content_type with
    | none =>
      (.exc (.attributeError "'NoneType' object has no attribute 'startswith'"),
        store, tr1)
    | some ct =>
      let post : Post :=
        { id := env.newId, user_id := user.id, caption := caption
          url := url, file_type := mediaTypeOf ct, file_name := stored
          created_at := env.now }
      match env.persistFail with
      | some msg => (.exc (.persistError msg), store, tr1)
      | none => (.ok post, store ++ [post], tr1)

/-- The `finally` clause of `upload_file` (`src/app/app.py` lines
128–132): unlink the temp file if it was created and still exists, and
close the uploaded file. -/
def uploadFinally (tr : UploadTrace) : UploadTrace :=
  let tr := if tr.temp_created then { tr with temp_deleted := true } else tr
  { tr with file_closed := true }

/-- `upload_file` (`src/app/app.py` lines 68–132): run the `try` body,
turn any exception into `HTTPException(500, str(e))`, and run the
`finally` clause on every path. -/
def upload_file (file : UploadFile) (user : User) (caption : String)
    (env : UploadEnv) (store : List Post) :
    UploadResponse × List Post × UploadTrace :=
  match uploadBody file user caption env store with
  | (.ok post, store2, tr) => (.created post, store2, uploadFinally tr)
  | (.exc e, store2, tr) => (.httpError 500 e.str, store2, uploadFinally tr)

/-- One entry of the `posts_data` list built by `get_feed`
(`src/app/app.py` lines 154–167).  The handler renders `id` with `str`
and `created_at` with `.isoformat()`; both renderings are injective, so
the fields are kept at their column types here. -/
structure FeedItem where
  id : Nat
  caption : String
  url : String
  file_type : String
  file_name : String
  created_at : Nat
  is_owner : Bool
  email : String
deriving DecidableEq

/-- The projection `get_feed` applies to each fetched row
(`src/app/app.py` lines 156–166). -/
def feedItem (user : User) (post : Post) : FeedItem :=
  { id := post.id, caption := post.caption, url := post.url
    file_type := post.file_type, file_name := post.file_name
    created_at := post.created_at
    is_owner := post.user_id == user.id
    email := user.email }

/-- `get_feed` (`src/app/app.py` lines 135–169) applied to the rows the
database returned for `select(Post).order_by(Post.created_at.desc())`:
it projects each row in the delivered order. -/
def get_feed (user : User) (rows : List Post) : List FeedItem :=
  rows.map (feedItem user)

/-- A list of timestamps is in non-increasing order. -/
def nonincreasing : List Nat → Bool
  | [] => true
  | [_] => true
  | a :: b :: rest => (b ≤ a) && nonincreasing (b :: rest)

/-- Contract of `session.execute(select(Post).order_by(Post.created_at.desc()))`
(`src/app/app.py` line 150): the database may deliver any enumeration of
the stored rows whose `created_at` values are non-increasing.  The query
names no secondary sort key, so ties are otherwise unconstrained. -/
def deliveredByQuery (store rows : List Post) : Prop :=
  List.Perm store rows ∧ nonincreasing (rows.map Post.created_at) = true

/-- Stability property claimed for ties: any two stored posts with equal
`created_at` appear in the delivered rows in their store (insertion)
order. -/
def tieStable (store rows : List Post) : Prop :=
  ∀ i j : Fin store.length, i.val < j.val →
    (store.get i).created_at = (store.get j).created_at →
    ∀ k l : Fin rows.length,
      rows.get k = store.get i → rows.get l = store.get j → k.val < l.val

/-- HTTP response of the delete endpoint: the success acknowledgment
`{"success": True, "message": ...}` or an `HTTPException` response. -/
inductive DeleteResponse where
  | ok (success : Bool) (message : String)
  | httpError (status : Nat) (detail : String)
deriving DecidableEq

/-- Modelled from the Python standard library: `uuid.UUID(post_id)`
string parsing as used at `src/app/app.py` line 188.  The constructor
strips surrounding braces, removes hyphens, and requires exactly 32 hex
digits, raising `ValueError` otherwise; the (`urn:`/`uuid:` marker
removal is omitted as no claim depends on it).  Returns the 128-bit
integer value as a `Nat`. -/
def uuidParse (s : String) : Option Nat :=
  let cs := s.toList
  let cs := cs.dropWhile fun c => c = '\x7b' || c = '\x7d'
  let cs := (cs.reverse.dropWhile fun c => c = '\x7b' || c = '\x7d').reverse
  let cs := cs.filter fun c => c ≠ '-'
  let hexDigit : Char → Bool := fun c =>
    ('0' ≤ c && c ≤ '9') || ('a' ≤ c && c ≤ 'f') || ('A' ≤ c && c ≤ 'F')
  let hexVal : Char → Nat := fun c =>
    if '0' ≤ c && c ≤ '9' then c.toNat - 48
    else if 'a' ≤ c && c ≤ 'f' then c.toNat - 87
    else c.toNat - 55
  if cs.length = 32 && cs.all hexDigit then
    some (cs.foldl (fun n c => 16 * n + hexVal c) 0)
  else
    none

/-- The `try` body of `delete_post` (`src/app/app.py` lines 187–204):
parse the id (`ValueError` on malformed input), fetch the first matching
row, raise `HTTPException(404)` if absent, `HTTPException(403)` if the
caller does not own it, else delete the row and commit.  `id` is the
primary key, so the delete removes exactly the rows with that id. -/
def deleteBody (store : List Post) (post_id : String) (user : User) :
    TryResult (Bool × String) × List Post :=
  match uuidParse post_id with
  | none => (.exc (.valueError "badly formed hexadecimal UUID string"), store)
  | some pid =>
    match store.find? (fun p => p.id == pid) with
    | none => (.exc (.httpException 404 "Post not found"), store)
    | some p =>
      if p.user_id ≠ user.id then
        (.exc (.httpException 403
          "You do not have permission to delete this post"), store)
      else
        ((.ok (true, "Post deleted successfully")),
          store.filter fun q => ¬ q.id = pid)

/-- `delete_post` (`src/app/app.py` lines 172–206): run the `try` body
and turn any exception — including the `HTTPException(404)` and
`HTTPException(403)` raised inside the `try` — into
`HTTPException(500, str(e))`, since `except Exception` catches
`HTTPException` too. -/
def delete_post (store : List Post) (post_id : String) (user : User) :
    DeleteResponse × List Post :=
  match deleteBody store post_id user with
  | (.ok (s, m), store2) => (.ok s m, store2)
  | (.exc e, store2) => (.httpError 500 e.str, store2)

/-- Concrete caller with id 1, used by witnesses. -/
def userOne : User := { id := 1, email := "one@example.com" }

/-- Concrete caller with id 2, used by witnesses. -/
def userTwo : User := { id := 2, email := "two@example.com" }

/-- Concrete post owned by user 1, `created_at = 10`. -/
def postA : Post :=
  { id := 1, user_id := 1, caption := "a", url := "ua"
    file_type := "image", file_name := "fa", created_at := 10 }

/-- Concrete post owned by user 2, `created_at = 10` (ties with `postA`). -/
def postB : Post :=
  { id := 2, user_id := 2, caption := "b", url := "ub"
    file_type := "video", file_name := "fb", created_at := 10 }

/-- Concrete post owned by user 2 with id 5. -/
def postC : Post :=
  { id := 5, user_id := 2, caption := "c", url := "uc"
    file_type := "image", file_name := "fc", created_at := 3 }

/-- Concrete image upload. -/
def fileJpg : UploadFile :=
  { filename := "a.jpg", content := [1, 2], content_type := some "image/jpeg" }

/-- Concrete video upload. -/
def fileMp4 : UploadFile :=
  { filename := "b.mp4", content := [3], content_type := some "video/mp4" }

/-- Concrete upload whose part carries no Content-Type header. -/
def fileNoCt : UploadFile :=
  { filename := "c.bin", content := [7], content_type := none }

/-- Concrete upload whose binary content is empty. -/
def fileEmpty : UploadFile :=
  { filename := "e.jpg", content := [], content_type := some "image/jpeg" }

/-- Environment in which both the blob upload and the commit succeed. -/
def envOk : UploadEnv :=
  { blob := .ok "http://cdn/x" "x_1.jpg", persistFail := none
    now := 5, newId := 9 }

/-- Environment in which the ImageKit upload fails. -/
def envBlobErr : UploadEnv :=
  { blob := .err "boom", persistFail := none, now := 5, newId := 9 }

/-- Environment in which `session.commit()` raises. -/
def envPersistErr : UploadEnv :=
  { blob := .ok "http://cdn/x" "x_1.jpg", persistFail := some "db down"
    now := 5, newId := 9 }

/-- The post a successful `upload_file fileJpg userOne "hi" envOk`
creates. -/
def postHi : Post :=
  { id := 9, user_id := 1, caption := "hi", url := "http://cdn/x"
    file_type := "image", file_name := "x_1.jpg", created_at := 5 }

/-- The post a successful `upload_file fileEmpty userOne "cap" envOk`
creates. -/
def postCap : Post :=
  { id := 9, user_id := 1, caption := "cap", url := "http://cdn/x"
    file_type := "image", file_name := "x_1.jpg", created_at := 5 }

/-- The post a successful `upload_file fileMp4 userOne "v" envOk`
creates. -/
def postVid : Post :=
  { id := 9, user_id := 1, caption := "v", url := "http://cdn/x"
    file_type := "video", file_name := "x_1.jpg", created_at := 5 }

/-- Canonical string form of UUID value 0. -/
def uuidZero : String := "00000000-0000-0000-0000-000000000000"

/-- Canonical string form of UUID value 5, the id of `postC`. -/
def uuidFive : String := "00000000-0000-0000-0000-000000000005"

/-- Claim C1 — code-bug evidence.  `delete_post` classifies its failure
causes internally (ValueError on a malformed id, `HTTPException(404)`
when no post matches, `HTTPException(403)` when the caller is not the
owner) and deletes only in the owner case; but because the surrounding
`except Exception` clause catches the `HTTPException`s it just raised,
every failure reaches the caller with status 500 rather than the claimed
404 / 403 / invalid-input classification.  Evaluated here at concrete
failing inputs: an absent well-formed id gives 500 (not 404), a
non-owner delete gives 500 (not 403), a malformed id gives 500, and only
the owner path deletes and acknowledges success. -/
theorem delete_post_error_statuses_collapse_to_500 :
    (delete_post [] uuidZero userOne).1
      = .httpError 500 "404: Post not found"
    ∧ (delete_post [postC] uuidFive userOne).1
      = .httpError 500 "403: You do not have permission to delete this post"
    ∧ (delete_post [] "not-a-uuid" userOne).1
      = .httpError 500 "badly formed hexadecimal UUID string"
    ∧ delete_post [postC] uuidFive userTwo
      = (.ok true "Post deleted successfully", []) := by
  refine ⟨?_, ?_, ?_, ?_⟩ <;> decide

/-- Claim C4: when the store contains a post found under the requested
id and the authenticated caller is not its owner, `delete_post` leaves
the store exactly as it was, and the post is still a member of it. -/
theorem delete_post_nonowner_leaves_store (store : List Post) (s : String)
    (user : User) (pid : Nat) (p : Post)
    (hparse : uuidParse s = some pid)
    (hfind : store.find? (fun q => q.id == pid) = some p)
    (hown : p.user_id ≠ user.id) :
    (delete_post store s user).2 = store ∧ p ∈ store := by
  refine ⟨?_, List.mem_of_find?_eq_some hfind⟩
  simp [delete_post, deleteBody, hparse, hfind, hown]

/-- Witness for the non-owner delete theorem: user 1 attempts to delete
`postC`, owned by user 2. -/
theorem delete_post_nonowner_leaves_store_witness :
    (delete_post [postC] uuidFive userOne).2 = [postC] ∧ postC ∈ [postC] :=
  delete_post_nonowner_leaves_store [postC] uuidFive userOne 5 postC
    (by decide) (by decide) (by decide)

/-- Claim C3 — counterexample.  Two posts sharing `created_at = 10`:
delivering them in reversed insertion order satisfies everything the
query `order_by(Post.created_at.desc())` asks of the storage engine, yet
violates the claimed stable insertion/id tie-break, so the claimed total
order is not guaranteed by the code. -/
theorem feed_tie_break_not_guaranteed :
    deliveredByQuery [postA, postB] [postB, postA]
    ∧ ¬ tieStable [postA, postB] [postB, postA] := by
  constructor
  · exact ⟨by decide, by decide⟩
  · intro h
    have h2 := h ⟨0, by decide⟩ ⟨1, by decide⟩ (by decide) (by decide)
      ⟨1, by decide⟩ ⟨0, by decide⟩ (by decide) (by decide)
    exact absurd h2 (by decide)

/-- Claim C3 — amended.  For every store and every row enumeration the
feed query may deliver, `get_feed` returns one item per stored post (a
permutation of the projected store) in non-increasing `created_at`
order; the relative order of equal timestamps is whatever the engine
delivered, not a guaranteed insertion/id tie-break. -/
theorem get_feed_perm_and_sorted (user : User) (store rows : List Post)
    (h : deliveredByQuery store rows) :
    List.Perm (get_feed user rows) (store.map (feedItem user))
    ∧ nonincreasing ((get_feed user rows).map FeedItem.created_at) = true := by
  obtain ⟨hperm, hsort⟩ := h
  constructor
  · exact (hperm.map (feedItem user)).symm
  · show nonincreasing ((rows.map (feedItem user)).map FeedItem.created_at) = true
    rw [List.map_map]
    exact hsort

/-- Witness for the feed order theorem at a concrete delivered
enumeration. -/
theorem get_feed_perm_and_sorted_witness :
    List.Perm (get_feed userOne [postB, postA])
      ([postA, postB].map (feedItem userOne))
    ∧ nonincreasing ((get_feed userOne [postB, postA]).map
        FeedItem.created_at) = true :=
  get_feed_perm_and_sorted userOne [postA, postB] [postB, postA]
    ⟨by decide, by decide⟩

/-- Claim C5: every stored post appears in the feed as its projection,
whose `is_owner` flag is true exactly when the post's owner is the
caller, and which carries the post's `id`, `caption`, `url`
(media_url), `file_type` (media_type), `file_name` (stored_name) and
`created_at` together with the caller's own email. -/
theorem feed_item_projection (user : User) (rows : List Post) (post : Post)
    (h : post ∈ rows) :
    feedItem user post ∈ get_feed user rows
    ∧ ((feedItem user post).is_owner = true ↔ post.user_id = user.id)
    ∧ (feedItem user post).id = post.id
    ∧ (feedItem user post).caption = post.caption
    ∧ (feedItem user post).url = post.url
    ∧ (feedItem user post).file_type = post.file_type
    ∧ (feedItem user post).file_name = post.file_name
    ∧ (feedItem user post).created_at = post.created_at
    ∧ (feedItem user post).email = user.email := by
  refine ⟨List.mem_map_of_mem _ h, ?_, rfl, rfl, rfl, rfl, rfl, rfl, rfl⟩
  simp [feedItem]

/-- Witness for the feed projection theorem: `postA` in a two-post feed
read by its owner. -/
theorem feed_item_projection_witness :
    feedItem userOne postA ∈ get_feed userOne [postB, postA]
    ∧ ((feedItem userOne postA).is_owner = true ↔ postA.user_id = userOne.id)
    ∧ (feedItem userOne postA).id = postA.id
    ∧ (feedItem userOne postA).caption = postA.caption
    ∧ (feedItem userOne postA).url = postA.url
    ∧ (feedItem userOne postA).file_type = postA.file_type
    ∧ (feedItem userOne postA).file_name = postA.file_name
    ∧ (feedItem userOne postA).created_at = postA.created_at
    ∧ (feedItem userOne postA).email = userOne.email :=
  feed_item_projection userOne [postB, postA] postA (by decide)

/-- Claim C2: `upload_file` is all-or-nothing for the caller.  A
response reporting a created post is only produced when the blob upload
succeeded (and the created post's `url` and `file_name` are exactly the
blob store's) and the commit succeeded; and whenever the blob upload or
the commit fails, the caller gets a 500 failure and the store is exactly
as before — no Post without a backing blob ever becomes observable and
no failure is surfaced as success. -/
theorem upload_file_all_or_nothing (file : UploadFile) (user : User)
    (caption : String) (env : UploadEnv) (store : List Post) :
    (∀ post, (upload_file file user caption env store).1 = .created post →
        env.blob = .ok post.url post.file_name ∧ env.persistFail = none
        ∧ (upload_file file user caption env store).2.1 = store ++ [post])
    ∧ (((∃ m, env.blob = .err m) ∨ (∃ m, env.persistFail = some m)) →
        (∃ d, (upload_file file user caption env store).1 = .httpError 500 d)
        ∧ (upload_file file user caption env store).2.1 = store) := by
  obtain ⟨fn, cont, ctOpt⟩ := file
  obtain ⟨blob, pf, now, nid⟩ := env
  cases blob <;> cases ctOpt <;> cases pf <;>
    simp_all [upload_file, uploadBody, uploadFinally, PyExc.str]

/-- Witness for the all-or-nothing theorem: a failing blob upload leaves
an empty store empty and yields a 500 response. -/
theorem upload_file_all_or_nothing_witness :
    (∃ d, (upload_file fileJpg userOne "hi" envBlobErr []).1
      = .httpError 500 d)
    ∧ (upload_file fileJpg userOne "hi" envBlobErr []).2.1 = [] :=
  (upload_file_all_or_nothing fileJpg userOne "hi" envBlobErr []).2
    (Or.inl ⟨"boom", rfl⟩)

/-- Claim C6: every post reported created by `upload_file` has
`user_id` equal to the authenticated caller's id, `created_at` equal to
the server clock value and `id` equal to the server-generated key (both
fields of the server environment, never client-supplied), the caller's
caption, and `url` / `file_name` exactly as returned by the blob store;
the persisted row is that same post. -/
theorem upload_file_created_post_fields (file : UploadFile) (user : User)
    (caption : String) (env : UploadEnv) (store : List Post) (post : Post)
    (h : (upload_file file user caption env store).1 = .created post) :
    post.user_id = user.id ∧ post.created_at = env.now
    ∧ post.id = env.newId ∧ post.caption = caption
    ∧ env.blob = .ok post.url post.file_name
    ∧ (upload_file file user caption env store).2.1 = store ++ [post] := by
  obtain ⟨fn, cont, ctOpt⟩ := file
  obtain ⟨blob, pf, now, nid⟩ := env
  cases blob <;> cases ctOpt <;> cases pf <;>
    simp_all [upload_file, uploadBody, uploadFinally] <;>
    subst h <;> simp

/-- Witness for the created-post fields theorem: a concrete successful
upload by user 1. -/
theorem upload_file_created_post_fields_witness :
    postHi.user_id = userOne.id
    ∧ postHi.created_at = envOk.now
    ∧ postHi.id = envOk.newId
    ∧ postHi.caption = "hi"
    ∧ envOk.blob = .ok postHi.url postHi.file_name
    ∧ (upload_file fileJpg userOne "hi" envOk []).2.1 = [] ++ [postHi] :=
  upload_file_created_post_fields fileJpg userOne "hi" envOk [] postHi rfl

/-- Claim C7: for an upload whose part declares a content type, the
created post is classified `video` exactly when the declared content
type starts with `"video/"`, and `image` exactly otherwise. -/
theorem upload_file_media_type_classification (file : UploadFile)
    (user : User) (caption : String) (env : UploadEnv) (store : List Post)
    (ct : String) (post : Post)
    (hct : file.content_type = some ct)
    (h : (upload_file file user caption env store).1 = .created post) :
    (post.file_type = "video" ↔ strStartsWith ct "video/" = true)
    ∧ (post.file_type = "image" ↔ strStartsWith ct "video/" = false) := by
  obtain ⟨fn, cont, ctOpt⟩ := file
  obtain ⟨blob, pf, now, nid⟩ := env
  cases blob <;> cases ctOpt <;> cases pf <;>
    simp_all [upload_file, uploadBody, uploadFinally, mediaTypeOf] <;>
    rcases hv : strStartsWith ct "video/" <;> simp_all <;>
    subst h <;> simp

/-- Witness for the media-type classification theorem: a concrete video
upload. -/
theorem upload_file_media_type_classification_witness :
    (postVid.file_type = "video" ↔ strStartsWith "video/mp4" "video/" = true)
    ∧ (postVid.file_type = "image"
      ↔ strStartsWith "video/mp4" "video/" = false) :=
  upload_file_media_type_classification fileMp4 userOne "v" envOk []
    "video/mp4" postVid rfl rfl

/-- Claim C8: on every exit path of `upload_file` — success, blob-store
failure, missing content type, or commit failure — the temporary staging
file was created and is deleted by the `finally` clause before the
operation returns, and the uploaded file handle is closed. -/
theorem upload_file_releases_temp_file (file : UploadFile) (user : User)
    (caption : String) (env : UploadEnv) (store : List Post) :
    ((upload_file file user caption env store).2.2).temp_created = true
    ∧ ((upload_file file user caption env store).2.2).temp_deleted = true
    ∧ ((upload_file file user caption env store).2.2).file_closed = true := by
  obtain ⟨fn, cont, ctOpt⟩ := file
  obtain ⟨blob, pf, now, nid⟩ := env
  cases blob <;> cases ctOpt <;> cases pf <;>
    simp [upload_file, uploadBody, uploadFinally]

/-- Claim C9 — counterexample.  A request whose file has empty binary
content does not fail with any invalid-input error: `upload_file`
performs no emptiness check, forwards the empty file, and (here, with
the collaborators succeeding) reports success and creates a Post. -/
theorem empty_file_upload_succeeds :
    fileEmpty.content = []
    ∧ (upload_file fileEmpty userOne "cap" envOk []).1 = .created postCap
    ∧ (upload_file fileEmpty userOne "cap" envOk []).2.1 = [postCap] := by
  refine ⟨rfl, ?_, ?_⟩ <;> decide

/-- Claim C9 — amended.  The file part is required and its absence is
rejected by the framework's request validation before `upload_file`
runs; `upload_file` itself never inspects the content for emptiness: an
empty file proceeds through staging and upload exactly like any other,
and when the blob store and the commit succeed a Post is created. -/
theorem upload_file_no_empty_check (file : UploadFile) (user : User)
    (caption : String) (env : UploadEnv) (store : List Post)
    (url stored ct : String)
    (hempty : file.content = [])
    (hct : file.content_type = some ct)
    (hblob : env.blob = .ok url stored)
    (hpersist : env.persistFail = none) :
    ∃ post, (upload_file file user caption env store).1 = .created post
      ∧ (upload_file file user caption env store).2.1 = store ++ [post] := by
  obtain ⟨fn, cont, ctOpt⟩ := file
  obtain ⟨blob, pf, now, nid⟩ := env
  simp_all [upload_file, uploadBody, uploadFinally]

/-- Witness for the no-emptiness-check theorem, at an empty `.jpg`
upload with succeeding collaborators. -/
theorem upload_file_no_empty_check_witness :
    ∃ post, (upload_file fileEmpty userTwo "w" envOk []).1 = .created post
      ∧ (upload_file fileEmpty userTwo "w" envOk []).2.1 = [] ++ [post] :=
  upload_file_no_empty_check fileEmpty userTwo "w" envOk []
    "http://cdn/x" "x_1.jpg" "image/jpeg" rfl rfl rfl rfl

/-- Claim C10: when the uploaded part declares no content type and the
blob upload has succeeded, the classification step
`file.content_type.startswith(...)` raises `AttributeError`, surfaced by
the handler as a generic 500 failure; no Post is persisted, while the
blob had already been uploaded. -/
theorem upload_file_none_content_type_500 (file : UploadFile)
    (user : User) (caption : String) (env : UploadEnv) (store : List Post)
    (url stored : String)
    (hct : file.content_type = none)
    (hblob : env.blob = .ok url stored) :
    (upload_file file user caption env store).1
      = .httpError 500 "'NoneType' object has no attribute 'startswith'"
    ∧ (upload_file file user caption env store).2.1 = store
    ∧ ((upload_file file user caption env store).2.2).blob_uploaded = true := by
  obtain ⟨fn, cont, ctOpt⟩ := file
  obtain ⟨blob, pf, now, nid⟩ := env
  simp_all [upload_file, uploadBody, uploadFinally, PyExc.str]

/-- Witness for the missing-content-type theorem at a concrete upload
with no declared content type. -/
theorem upload_file_none_content_type_500_witness :
    (upload_file fileNoCt userOne "x" envOk []).1
      = .httpError 500 "'NoneType' object has no attribute 'startswith'"
    ∧ (upload_file fileNoCt userOne "x" envOk []).2.1 = []
    ∧ ((upload_file fileNoCt userOne "x" envOk []).2.2).blob_uploaded
      = true :=
  upload_file_none_content_type_500 fileNoCt userOne "x" envOk []
    "http://cdn/x" "x_1.jpg" rfl rfl

end FastapiApp
